import Mathlib

/-!
Shallow embedding of the statistics core of the health-wise-ai-guardian
repository: the `AIAnalysisEngine` class (z-scores, baselines, anomaly
detection, risk scoring, one-step OLS forecasting) and the multi-step
extrapolator of `AdvancedPredictiveEngine.generateTimeSeriesPredictions`.

Conventions of the embedding:
* JavaScript numbers are modelled as real numbers (`ℝ`).
* A JavaScript computation that produces `NaN` (through an unguarded
  `0/0`) is modelled with `Option`: `none` stands for `NaN`.  The only
  places where the source can produce `NaN` on the paths treated here are
  `calculateStandardDeviation` on an empty array and the R²-based
  confidence of `predictNextValue` on a zero-variance series.
* `Math.round` is modelled by `jsRound x = ⌊x + 1/2⌋` (JavaScript rounds
  half-way cases toward +∞).
* The engine's private `patientBaselines : Map<string, PatientBaseline>`
  is modelled as an explicit state `String → Option PatientBaseline`
  threaded through the methods that read or write it.
* The presentational string fields of `AIInsight` (`title`,
  `description`, `explanation`) only interpolate formatted numbers into
  fixed text and are omitted; the `timestamp` string of `VitalSignData`
  plays no part in any computation and is omitted as well.
-/

namespace HealthWise

/-- Blood-pressure component of a reading (source: `VitalSignData.bloodPressure`). -/
structure BloodPressure where
  systolic : ℝ
  diastolic : ℝ


/-- One vital-sign reading (source: `VitalSignData`, `timestamp` omitted). -/
structure VitalSignData where
  heartRate : ℝ
  bloodPressure : BloodPressure
  temperature : ℝ
  oxygenSat : ℝ


/-- Per-metric baseline summary `{mean, std, min, max}`. -/
structure MetricStats where
  mean : ℝ
  std : ℝ
  min : ℝ
  max : ℝ


/-- Source: `PatientBaseline`. -/
structure PatientBaseline where
  heartRate : MetricStats
  systolic : MetricStats
  diastolic : MetricStats
  temperature : MetricStats
  oxygenSat : MetricStats
  dataPoints : ℕ


/-- The `type` discriminant of an `AIInsight`. -/
inductive InsightType
  | anomaly | trend | prediction | correlation | recommendation
deriving DecidableEq

/-- The `severity` field of an `AIInsight`. -/
inductive Severity
  | low | medium | high | critical
deriving DecidableEq

/-- Source: `AIInsight` (presentational string fields omitted). -/
structure AIInsight where
  type : InsightType
  severity : Severity
  confidence : ℝ
  metric : Option String
  value : Option ℝ

/-- The `trend` field of a `HealthRiskScore`. -/
inductive TrendLabel
  | improving | stable | deteriorating
deriving DecidableEq

/-- Source: `HealthRiskScore`.  The four score fields are produced by
`Math.round` and are therefore integers. -/
structure HealthRiskScore where
  overall : ℤ
  cardiovascular : ℤ
  respiratory : ℤ
  metabolic : ℤ
  confidence : ℝ
  trend : TrendLabel

/-- The engine's `patientBaselines` map, as an explicit state. -/
def EngineState : Type := String → Option PatientBaseline

/-- `Math.round`: round half-way cases toward +∞. -/
noncomputable def jsRound (x : ℝ) : ℤ := ⌊x + 1 / 2⌋

/-- Source: `AIAnalysisEngine.calculateZScore` (lines 43–46). -/
noncomputable def calculateZScore (value mean std : ℝ) : ℝ :=
  if std = 0 then 0 else |(value - mean) / std|

/-- Source: `AIAnalysisEngine.calculateStandardDeviation` (lines 59–63).
On an empty array the source divides `0/0` twice (mean and variance) and
takes `Math.sqrt` of the resulting `NaN`, so the result is `NaN`,
modelled as `none`. -/
noncomputable def calculateStandardDeviation (data : List ℝ) : Option ℝ :=
  if data.length = 0 then none
  else
    let mean := data.sum / (data.length : ℝ)
    let variance := (data.map (fun v => (v - mean) ^ 2)).sum / (data.length : ℝ)
    some (Real.sqrt variance)

/-- Population variance written the spec's way (second moment minus the
squared mean), to compare with the source's sum of squared deviations. -/
noncomputable def specPopVariance (data : List ℝ) : ℝ :=
  (data.map (fun v => v ^ 2)).sum / (data.length : ℝ) - (data.sum / (data.length : ℝ)) ^ 2

/-- The deviation of the `i`-th element of a sequence from the
sequence's mean: the `dx` / `dy` of the source's correlation loop
(lines 76–77). -/
noncomputable def dev (x : List ℝ) (i : ℕ) : ℝ :=
  x.getD i 0 - x.sum / (x.length : ℝ)

/-- The denominator `Math.sqrt(denomX * denomY)` of the source's Pearson
correlation (line 83), factored out so degeneracy can be stated.  The
loop runs over `0 ≤ i < x.length` for both accumulators. -/
noncomputable def corrDenom (x y : List ℝ) : ℝ :=
  Real.sqrt ((∑ i ∈ Finset.range x.length, dev x i * dev x i)
    * (∑ i ∈ Finset.range x.length, dev y i * dev y i))

/-- Source: `AIAnalysisEngine.calculateCorrelation` (lines 65–85).  The
`for` loop over indices `0 ≤ i < x.length` is rendered as sums over
`Finset.range x.length`. -/
noncomputable def calculateCorrelation (x y : List ℝ) : ℝ :=
  if x.length ≠ y.length ∨ x.length = 0 then 0
  else
    let numerator := ∑ i ∈ Finset.range x.length, dev x i * dev y i
    let denom := corrDenom x y
    if denom = 0 then 0 else numerator / denom

/-- Pearson's correlation written the spec's way: covariance sum divided
by the product of the two root sums of squares. -/
noncomputable def specPearson (x y : List ℝ) : ℝ :=
  (∑ i ∈ Finset.range x.length, dev x i * dev y i)
    / (Real.sqrt (∑ i ∈ Finset.range x.length, dev x i * dev x i)
        * Real.sqrt (∑ i ∈ Finset.range x.length, dev y i * dev y i))

/-- `Math.min(...data)` over a spread array; every call site passes a
non-empty array (the value on `[]` is never used). -/
noncomputable def jsListMin (data : List ℝ) : ℝ :=
  match data with
  | [] => 0
  | h :: t => t.foldl min h

/-- `Math.max(...data)` over a spread array; every call site passes a
non-empty array (the value on `[]` is never used). -/
noncomputable def jsListMax (data : List ℝ) : ℝ :=
  match data with
  | [] => 0
  | h :: t => t.foldl max h

/-- Source: `AIAnalysisEngine.calculateBaslineStats` (lines 113–119,
misspelling kept).  Only reached with non-empty `data` (the caller
returns early on an empty history), so the `getD 0` on the standard
deviation never fires. -/
noncomputable def calculateBaslineStats (data : List ℝ) : MetricStats :=
  { mean := data.sum / (data.length : ℝ)
    std := (calculateStandardDeviation data).getD 0
    min := jsListMin data
    max := jsListMax data }

/-- Source: `AIAnalysisEngine.getDefaultBaseline` (lines 121–130). -/
def getDefaultBaseline : PatientBaseline :=
  { heartRate := { mean := 75, std := 15, min := 60, max := 90 }
    systolic := { mean := 120, std := 20, min := 90, max := 140 }
    diastolic := { mean := 80, std := 10, min := 60, max := 90 }
    temperature := { mean := 37.0, std := 0.5, min := 36.5, max := 37.5 }
    oxygenSat := { mean := 98, std := 2, min := 95, max := 100 }
    dataPoints := 0 }

/-- Source: `AIAnalysisEngine.updatePatientBaseline` (lines 89–111).
Returns the computed baseline together with the engine state after the
call; on an empty history the source returns the default baseline before
reaching `this.patientBaselines.set`. -/
noncomputable def updatePatientBaseline (st : EngineState) (patientId : String)
    (data : List VitalSignData) : PatientBaseline × EngineState :=
  if data.length = 0 then (getDefaultBaseline, st)
  else
    let baseline : PatientBaseline :=
      { heartRate := calculateBaslineStats (data.map (·.heartRate))
        systolic := calculateBaslineStats (data.map (·.bloodPressure.systolic))
        diastolic := calculateBaslineStats (data.map (·.bloodPressure.diastolic))
        temperature := calculateBaslineStats (data.map (·.temperature))
        oxygenSat := calculateBaslineStats (data.map (·.oxygenSat))
        dataPoints := data.length }
    (baseline, fun pid => if pid = patientId then some baseline else st pid)

/-- Source: `AIAnalysisEngine.detectAnomalies` (lines 134–190).
`historicalData.slice(-10)` is the last ten readings, rendered as
`drop (length - 10)`.  The source also computes `tempZScore` and
`o2ZScore` but never uses them.  The correlation insight carries no
`metric`/`value` fields in the source. -/
noncomputable def detectAnomalies (st : EngineState) (patientId : String)
    (currentData : VitalSignData) (historicalData : List VitalSignData) : List AIInsight :=
  let baseline := (st patientId).getD getDefaultBaseline
  let hrZScore := calculateZScore currentData.heartRate baseline.heartRate.mean baseline.heartRate.std
  let sysZScore := calculateZScore currentData.bloodPressure.systolic baseline.systolic.mean baseline.systolic.std
  let hrInsights : List AIInsight :=
    if 2 < hrZScore then
      [{ type := .anomaly
         severity := if 3 < hrZScore then .critical else .high
         confidence := min 95 (hrZScore * 25)
         metric := some "heartRate"
         value := some currentData.heartRate }]
    else []
  let sysInsights : List AIInsight :=
    if 2 < sysZScore then
      [{ type := .anomaly
         severity := if 3 < sysZScore then .critical else .high
         confidence := min 95 (sysZScore * 25)
         metric := some "bloodPressure"
         value := some currentData.bloodPressure.systolic }]
    else []
  let corrInsights : List AIInsight :=
    if 10 ≤ historicalData.length then
      let recentData := historicalData.drop (historicalData.length - 10)
      let heartRates := recentData.map (·.heartRate)
      let systolics := recentData.map (·.bloodPressure.systolic)
      let correlation := calculateCorrelation heartRates systolics
      if 0.7 < |correlation| then
        [{ type := .correlation
           severity := .medium
           confidence := |correlation| * 100
           metric := none
           value := none }]
      else []
    else []
  hrInsights ++ sysInsights ++ corrInsights

/-- Result record of `predictNextValue`; the R²-derived confidence is
`NaN` (here `none`) when the series has zero variance, because the
source divides `ssRes / ssTot = 0 / 0`. -/
structure NextValue where
  prediction : ℝ
  confidence : Option ℝ

/-- Source: `AIAnalysisEngine.predictNextValue` (lines 194–222), the
one-step OLS forecaster.  `data[data.length - 1] || 0` is the last
element, or `0` on an empty array.  The index-`reduce` loops are
rendered as sums over `Finset.range data.length`.  When `ssTot = 0`
(constant series) the residuals are also all zero, so the source's
`rSquared = 1 - 0/0` is `NaN` and the `min`/`max` clamp propagates it:
the confidence is `none`. -/
noncomputable def predictNextValue (data : List ℝ) (periods : ℕ) : NextValue :=
  if data.length < 3 then
    { prediction := (data.getLast?).getD 0, confidence := some 30 }
  else
    let n : ℝ := data.length
    let sumX := ∑ i ∈ Finset.range data.length, (i : ℝ)
    let sumY := data.sum
    let sumXY := ∑ i ∈ Finset.range data.length, (i : ℝ) * data.getD i 0
    let sumX2 := ∑ i ∈ Finset.range data.length, (i : ℝ) * (i : ℝ)
    let slope := (n * sumXY - sumX * sumY) / (n * sumX2 - sumX * sumX)
    let intercept := (sumY - slope * sumX) / n
    let prediction := slope * (n + (periods : ℝ) - 1) + intercept
    let yMean := sumY / n
    let ssRes := ∑ i ∈ Finset.range data.length, (data.getD i 0 - (slope * (i : ℝ) + intercept)) ^ 2
    let ssTot := ∑ i ∈ Finset.range data.length, (data.getD i 0 - yMean) ^ 2
    if ssTot = 0 then { prediction := prediction, confidence := none }
    else
      { prediction := prediction
        confidence := some (max 30 (min 90 ((1 - ssRes / ssTot) * 100))) }

/-- The unclamped-then-capped cardiovascular risk of
`calculateHealthRiskScore` (lines 230–235), factored out. -/
noncomputable def cardiovascularRiskRaw (baseline : PatientBaseline) (d : VitalSignData) : ℝ :=
  min 100 ((calculateZScore d.heartRate baseline.heartRate.mean baseline.heartRate.std
    + calculateZScore d.bloodPressure.systolic baseline.systolic.mean baseline.systolic.std
    + calculateZScore d.bloodPressure.diastolic baseline.diastolic.mean baseline.diastolic.std) * 15)

/-- The respiratory risk of `calculateHealthRiskScore` (lines 238–239). -/
noncomputable def respiratoryRiskRaw (baseline : PatientBaseline) (d : VitalSignData) : ℝ :=
  min 100 (calculateZScore d.oxygenSat baseline.oxygenSat.mean baseline.oxygenSat.std * 25)

/-- The metabolic risk of `calculateHealthRiskScore` (lines 242–243). -/
noncomputable def metabolicRiskRaw (baseline : PatientBaseline) (d : VitalSignData) : ℝ :=
  min 100 (calculateZScore d.temperature baseline.temperature.mean baseline.temperature.std * 20)

/-- The derived cardiovascular-risk series over the last five readings
(`historicalData.slice(-5).map(...)`, lines 251–255): heart-rate plus
systolic z-scores, times 15. -/
noncomputable def recentCardioRisks (baseline : PatientBaseline)
    (historicalData : List VitalSignData) : List ℝ :=
  (historicalData.drop (historicalData.length - 5)).map (fun d =>
    (calculateZScore d.heartRate baseline.heartRate.mean baseline.heartRate.std
      + calculateZScore d.bloodPressure.systolic baseline.systolic.mean baseline.systolic.std) * 15)

/-- Source: `AIAnalysisEngine.calculateHealthRiskScore` (lines 226–272). -/
noncomputable def calculateHealthRiskScore (st : EngineState) (patientId : String)
    (currentData : VitalSignData) (historicalData : List VitalSignData) : HealthRiskScore :=
  let baseline := (st patientId).getD getDefaultBaseline
  let cardiovascularRisk := cardiovascularRiskRaw baseline currentData
  let respiratoryRisk := respiratoryRiskRaw baseline currentData
  let metabolicRisk := metabolicRiskRaw baseline currentData
  let overall := cardiovascularRisk * 0.5 + respiratoryRisk * 0.3 + metabolicRisk * 0.2
  let trend : TrendLabel :=
    if 5 ≤ historicalData.length then
      let prediction := (predictNextValue (recentCardioRisks baseline historicalData) 1).prediction
      let currentRisk := cardiovascularRisk
      if currentRisk + 10 < prediction then .deteriorating
      else if prediction < currentRisk - 10 then .improving
      else .stable
    else .stable
  { overall := jsRound overall
    cardiovascular := jsRound cardiovascularRisk
    respiratory := jsRound respiratoryRisk
    metabolic := jsRound metabolicRisk
    confidence := if 10 < baseline.dataPoints then 85
      else min 70 ((baseline.dataPoints : ℝ) * 7)
    trend := trend }

/-- One entry of the multi-step forecast of
`AdvancedPredictiveEngine.generateTimeSeriesPredictions`. -/
structure TimeSeriesPrediction where
  value : ℝ
  confidence : ℝ

/-- The smoothing level of `generateTimeSeriesPredictions` (line 233):
the last observed value (`values[values.length - 1]`; call sites pass
non-empty series). -/
noncomputable def tsLevel (values : List ℝ) : ℝ := (values.getLast?).getD 0

/-- The smoothing trend of `generateTimeSeriesPredictions` (line 234):
the last first-difference, `0` for a single-point series. -/
noncomputable def tsTrend (values : List ℝ) : ℝ :=
  if 1 < values.length then tsLevel values - values.getD (values.length - 2) 0 else 0

/-- Source: `AdvancedPredictiveEngine.generateTimeSeriesPredictions`
(part_003, lines 226–247).  Step `i` (1-based) forecasts
`level + i * trend`, clamped below by `Math.max(0, ...)`, with
confidence `max(30, 90 - i*10)`.  The declared `alpha`/`beta` smoothing
constants are never used in the source. -/
noncomputable def generateTimeSeriesPredictions (values : List ℝ) (periods : ℕ) :
    List TimeSeriesPrediction :=
  (List.range periods).map (fun j =>
    let i : ℕ := j + 1
    { value := max 0 (tsLevel values + (i : ℝ) * tsTrend values)
      confidence := max 30 (90 - (i : ℝ) * 10) })

/-! Concrete fixtures used by witnesses and counterexamples. -/

/-- An engine state with no stored baselines (a fresh engine). -/
def emptyState : EngineState := fun _ => none

/-- A reading whose only deviation from the default baseline is a heart
rate of `75.9375` (heart-rate z-score `0.0625` against mean 75, std 15). -/
noncomputable def readingC2 : VitalSignData :=
  { heartRate := 75.9375
    bloodPressure := { systolic := 120, diastolic := 80 }
    temperature := 37.0
    oxygenSat := 98 }

/-- The baseline of the spec's anomaly scenario: heart rate mean `75`,
std `10` (other metrics as in the default baseline). -/
noncomputable def baselineC4 : PatientBaseline :=
  { heartRate := { mean := 75, std := 10, min := 60, max := 90 }
    systolic := { mean := 120, std := 20, min := 90, max := 140 }
    diastolic := { mean := 80, std := 10, min := 60, max := 90 }
    temperature := { mean := 37.0, std := 0.5, min := 36.5, max := 37.5 }
    oxygenSat := { mean := 98, std := 2, min := 95, max := 100 }
    dataPoints := 12 }

/-- An engine state that stores `baselineC4` for every patient. -/
noncomputable def stateC4 : EngineState := fun _ => some baselineC4

/-- Heart rate `96` against `baselineC4`: z-score `2.1`. -/
noncomputable def reading96 : VitalSignData :=
  { heartRate := 96
    bloodPressure := { systolic := 120, diastolic := 80 }
    temperature := 37.0
    oxygenSat := 98 }

/-- Heart rate `106` against `baselineC4`: z-score `3.1`. -/
noncomputable def reading106 : VitalSignData :=
  { heartRate := 106
    bloodPressure := { systolic := 120, diastolic := 80 }
    temperature := 37.0
    oxygenSat := 98 }

/-- One reading of the flat-but-elevated history of the C5
counterexample: heart rate `105` (z = 2) and systolic `160` (z = 2)
against the default baseline. -/
noncomputable def readingHistC5 : VitalSignData :=
  { heartRate := 105
    bloodPressure := { systolic := 160, diastolic := 80 }
    temperature := 37.0
    oxygenSat := 98 }

/-- A five-reading history whose derived cardiovascular-risk series is
flat at `60`. -/
noncomputable def histC5 : List VitalSignData :=
  [readingHistC5, readingHistC5, readingHistC5, readingHistC5, readingHistC5]

/-- A perfectly baseline-typical current reading (all z-scores `0`). -/
noncomputable def readingCurC5 : VitalSignData :=
  { heartRate := 75
    bloodPressure := { systolic := 120, diastolic := 80 }
    temperature := 37.0
    oxygenSat := 98 }

/-! Helper lemmas shared by several claims. -/

/-- Evaluation rule for `calculateZScore` when the value is above the
mean and the deviation is positive. -/
lemma calculateZScore_pos_eval (v m s : ℝ) (hs : 0 < s) (hvm : m ≤ v) :
    calculateZScore v m s = (v - m) / s := by
  unfold calculateZScore
  rw [if_neg (ne_of_gt hs)]
  exact abs_of_nonneg (div_nonneg (sub_nonneg.mpr hvm) hs.le)

/-- `jsRound` evaluated through the floor characterisation. -/
lemma jsRound_eq (x : ℝ) (n : ℤ) (h1 : (n : ℝ) ≤ x + 1 / 2) (h2 : x + 1 / 2 < n + 1) :
    jsRound x = n := by
  unfold jsRound
  exact Int.floor_eq_iff.mpr ⟨h1, h2⟩

/-- Sum of squared deviations, expanded. -/
lemma sum_sq_dev (m : ℝ) (xs : List ℝ) :
    (xs.map (fun v => (v - m) ^ 2)).sum
      = (xs.map (fun v => v ^ 2)).sum - 2 * m * xs.sum + (xs.length : ℝ) * m ^ 2 := by
  induction xs with
  | nil => simp
  | cons x t ih =>
    simp only [List.map_cons, List.sum_cons, List.length_cons, ih]
    push_cast
    ring

/-! ### Claims -/

/-- C1: `calculateZScore v m s` is `0` when `s = 0`, the absolute value
`|v - m| / |s|` otherwise, and is non-negative in every case. -/
theorem c1_zscore_characterisation (v m s : ℝ) :
    calculateZScore v m 0 = 0
    ∧ calculateZScore v m s = (if s = 0 then 0 else |v - m| / |s|)
    ∧ 0 ≤ calculateZScore v m s := by
  refine ⟨by simp [calculateZScore], ?_, ?_⟩
  · unfold calculateZScore
    split
    · rfl
    · exact abs_div _ _
  · unfold calculateZScore
    split
    · exact le_refl 0
    · exact abs_nonneg _

/-- C6 (counterexample): on the empty sequence
`calculateStandardDeviation` does not return `0`; it returns `NaN`
(the source divides `0/0`), modelled as `none`. -/
theorem c6_empty_std_counterexample :
    calculateStandardDeviation ([] : List ℝ) = none
    ∧ calculateStandardDeviation ([] : List ℝ) ≠ some 0 := by
  constructor <;> simp [calculateStandardDeviation]

/-- C6 (amended): on an empty sequence `calculateStandardDeviation`
returns `NaN` (modelled `none`) rather than raising; on a non-empty
sequence it is the square root of the population variance (second moment
minus squared mean, i.e. dividing by `n`, not `n - 1`), hence
non-negative. -/
theorem c6_std_population_nonneg (xs : List ℝ) (h : xs ≠ []) :
    calculateStandardDeviation xs = some (Real.sqrt (specPopVariance xs))
    ∧ ∀ r, calculateStandardDeviation xs = some r → 0 ≤ r := by
  have hlen : xs.length ≠ 0 := fun hl => h (List.length_eq_zero.mp hl)
  have hn : (xs.length : ℝ) ≠ 0 := Nat.cast_ne_zero.mpr hlen
  constructor
  · unfold calculateStandardDeviation specPopVariance
    rw [if_neg hlen]
    refine congrArg some (congrArg Real.sqrt ?_)
    rw [sum_sq_dev]
    field_simp
    ring
  · intro r hr
    unfold calculateStandardDeviation at hr
    rw [if_neg hlen] at hr
    obtain rfl := (Option.some_injective ℝ) hr.symm
    exact Real.sqrt_nonneg _

/-- C6 witness: the amended statement applied to the concrete list `[1, 2]`. -/
theorem c6_std_population_nonneg_witness :
    ([(1 : ℝ), 2] ≠ [])
    ∧ (calculateStandardDeviation [(1 : ℝ), 2] = some (Real.sqrt (specPopVariance [(1 : ℝ), 2]))
        ∧ ∀ r, calculateStandardDeviation [(1 : ℝ), 2] = some r → 0 ≤ r) :=
  ⟨by simp, c6_std_population_nonneg [(1 : ℝ), 2] (by simp)⟩

/-- C8: updating a baseline from an empty history returns the hardcoded
default baseline, with the exact per-metric constants of the source,
rather than an error. -/
theorem c8_empty_history_default_baseline (st : EngineState) (pid : String) :
    (updatePatientBaseline st pid []).1 =
      { heartRate := { mean := 75, std := 15, min := 60, max := 90 }
        systolic := { mean := 120, std := 20, min := 90, max := 140 }
        diastolic := { mean := 80, std := 10, min := 60, max := 90 }
        temperature := { mean := 37.0, std := 0.5, min := 36.5, max := 37.5 }
        oxygenSat := { mean := 98, std := 2, min := 95, max := 100 }
        dataPoints := 0 } := rfl

/-- C10: updating a baseline from an empty history leaves the engine's
baseline map completely unchanged (no entry is created or overwritten)
and returns the default baseline without storing it. -/
theorem c10_empty_history_frame (st : EngineState) (pid : String) :
    (updatePatientBaseline st pid []).2 = st
    ∧ (updatePatientBaseline st pid []).1 = getDefaultBaseline :=
  ⟨rfl, rfl⟩

/-- C2 (counterexample): the returned `overall` is not, in general, the
rounding of the weighted sum of the returned (already rounded) category
scores.  With the default baseline and heart rate `75.9375` the raw
cardiovascular risk is `0.9375`, so the code returns
`overall = round(0.46875) = 0` but `cardiovascular = round(0.9375) = 1`,
and rounding the weighted sum of the returned scores gives
`round(0.5) = 1 ≠ 0`. -/
theorem c2_overall_rounded_counterexample :
    (calculateHealthRiskScore emptyState "patient-1" readingC2 []).overall
      ≠ jsRound
        (((calculateHealthRiskScore emptyState "patient-1" readingC2 []).cardiovascular : ℝ) * 0.5
          + ((calculateHealthRiskScore emptyState "patient-1" readingC2 []).respiratory : ℝ) * 0.3
          + ((calculateHealthRiskScore emptyState "patient-1" readingC2 []).metabolic : ℝ) * 0.2) := by
  have hcard : cardiovascularRiskRaw getDefaultBaseline readingC2 = 0.9375 := by
    unfold cardiovascularRiskRaw calculateZScore getDefaultBaseline readingC2
    norm_num [abs_of_nonneg]
  have hresp : respiratoryRiskRaw getDefaultBaseline readingC2 = 0 := by
    unfold respiratoryRiskRaw calculateZScore getDefaultBaseline readingC2
    norm_num
  have hmetab : metabolicRiskRaw getDefaultBaseline readingC2 = 0 := by
    unfold metabolicRiskRaw calculateZScore getDefaultBaseline readingC2
    norm_num
  have h1 : jsRound ((0.9375 : ℝ) * 0.5 + 0 * 0.3 + 0 * 0.2) = 0 := by
    apply jsRound_eq <;> norm_num
  have h2 : jsRound (0.9375 : ℝ) = 1 := by
    apply jsRound_eq <;> norm_num
  have h3 : jsRound (0 : ℝ) = 0 := by
    apply jsRound_eq <;> norm_num
  have h4 : jsRound (((1 : ℤ) : ℝ) * 0.5 + ((0 : ℤ) : ℝ) * 0.3 + ((0 : ℤ) : ℝ) * 0.2) = 1 := by
    apply jsRound_eq <;> norm_num
  simp only [calculateHealthRiskScore, emptyState, Option.getD_none, hcard, hresp, hmetab,
    h1, h2, h3, h4]
  decide

/-- C2 (amended): `overall` is the rounding of the fixed
`0.5 / 0.3 / 0.2`-weighted sum of the three unrounded category risks,
and each returned category score is the rounding of the corresponding
unrounded risk — rounding happens only at the boundary, so the identity
holds for the raw values, not for the already-rounded returned fields. -/
theorem c2_overall_weighted_raw (st : EngineState) (pid : String)
    (cur : VitalSignData) (hist : List VitalSignData) :
    (calculateHealthRiskScore st pid cur hist).overall
      = jsRound (cardiovascularRiskRaw ((st pid).getD getDefaultBaseline) cur * 0.5
          + respiratoryRiskRaw ((st pid).getD getDefaultBaseline) cur * 0.3
          + metabolicRiskRaw ((st pid).getD getDefaultBaseline) cur * 0.2)
    ∧ (calculateHealthRiskScore st pid cur hist).cardiovascular
      = jsRound (cardiovascularRiskRaw ((st pid).getD getDefaultBaseline) cur)
    ∧ (calculateHealthRiskScore st pid cur hist).respiratory
      = jsRound (respiratoryRiskRaw ((st pid).getD getDefaultBaseline) cur)
    ∧ (calculateHealthRiskScore st pid cur hist).metabolic
      = jsRound (metabolicRiskRaw ((st pid).getD getDefaultBaseline) cur) :=
  ⟨rfl, rfl, rfl, rfl⟩

/-- C4: for the heart-rate and systolic metrics, `detectAnomalies`
emits an anomaly insight exactly when the z-score against the patient's
baseline exceeds `2`; the severity is `critical` when the z-score
exceeds `3` and `high` otherwise, and the confidence is
`min 95 (z * 25)`.  Concretely, against a baseline with heart-rate mean
`75` and std `10`, heart rate `96` (z = 2.1) yields one `high` insight
of confidence `52.5`, and heart rate `106` (z = 3.1) yields one
`critical` insight. -/
theorem c4_anomaly_emission :
    (∀ (st : EngineState) (pid : String) (cur : VitalSignData) (hist : List VitalSignData),
      let b := (st pid).getD getDefaultBaseline
      let zhr := calculateZScore cur.heartRate b.heartRate.mean b.heartRate.std
      let zsys := calculateZScore cur.bloodPressure.systolic b.systolic.mean b.systolic.std
      ((detectAnomalies st pid cur hist).filter (fun ins => ins.metric = some "heartRate")
          = if 2 < zhr then
              [{ type := .anomaly
                 severity := if 3 < zhr then .critical else .high
                 confidence := min 95 (zhr * 25)
                 metric := some "heartRate"
                 value := some cur.heartRate }]
            else [])
      ∧ ((detectAnomalies st pid cur hist).filter (fun ins => ins.metric = some "bloodPressure")
          = if 2 < zsys then
              [{ type := .anomaly
                 severity := if 3 < zsys then .critical else .high
                 confidence := min 95 (zsys * 25)
                 metric := some "bloodPressure"
                 value := some cur.bloodPressure.systolic }]
            else []))
    ∧ detectAnomalies stateC4 "p-1" reading96 []
        = [{ type := .anomaly, severity := .high, confidence := 52.5,
             metric := some "heartRate", value := some 96 }]
    ∧ detectAnomalies stateC4 "p-1" reading106 []
        = [{ type := .anomaly, severity := .critical, confidence := 77.5,
             metric := some "heartRate", value := some 106 }] := by
  refine ⟨fun st pid cur hist => ?_, ?_, ?_⟩
  · constructor
    · simp only [detectAnomalies, List.filter_append]
      split_ifs <;> simp_all [List.filter]
    · simp only [detectAnomalies, List.filter_append]
      split_ifs <;> simp_all [List.filter]
  · have hz : calculateZScore reading96.heartRate baselineC4.heartRate.mean
        baselineC4.heartRate.std = 2.1 := by
      rw [show reading96.heartRate = 96 from rfl, show baselineC4.heartRate.mean = 75 from rfl,
        show baselineC4.heartRate.std = 10 from rfl,
        calculateZScore_pos_eval 96 75 10 (by norm_num) (by norm_num)]
      norm_num
    have hzs : calculateZScore reading96.bloodPressure.systolic baselineC4.systolic.mean
        baselineC4.systolic.std = 0 := by
      rw [show reading96.bloodPressure.systolic = 120 from rfl,
        show baselineC4.systolic.mean = 120 from rfl, show baselineC4.systolic.std = 20 from rfl,
        calculateZScore_pos_eval 120 120 20 (by norm_num) (by norm_num)]
      norm_num
    simp only [detectAnomalies, stateC4, Option.getD_some, List.length_nil, hz, hzs]
    norm_num [min_def]
    rfl
  · have hz : calculateZScore reading106.heartRate baselineC4.heartRate.mean
        baselineC4.heartRate.std = 3.1 := by
      rw [show reading106.heartRate = 106 from rfl, show baselineC4.heartRate.mean = 75 from rfl,
        show baselineC4.heartRate.std = 10 from rfl,
        calculateZScore_pos_eval 106 75 10 (by norm_num) (by norm_num)]
      norm_num
    have hzs : calculateZScore reading106.bloodPressure.systolic baselineC4.systolic.mean
        baselineC4.systolic.std = 0 := by
      rw [show reading106.bloodPressure.systolic = 120 from rfl,
        show baselineC4.systolic.mean = 120 from rfl, show baselineC4.systolic.std = 20 from rfl,
        calculateZScore_pos_eval 120 120 20 (by norm_num) (by norm_num)]
      norm_num
    simp only [detectAnomalies, stateC4, Option.getD_some, List.length_nil, hz, hzs]
    norm_num [min_def]
    rfl

/-- On a constant five-point series the OLS forecaster predicts the
constant itself, but its R²-based confidence is `NaN` (`none`): the
residual and total sums of squares are both `0`, so the source computes
`rSquared = 1 - 0/0`. -/
lemma predictNextValue_const5 (a : ℝ) :
    predictNextValue [a, a, a, a, a] 1 = ⟨a, none⟩ := by
  have hlen : ¬ ([a, a, a, a, a].length < 3) := by simp
  unfold predictNextValue
  rw [if_neg hlen]
  norm_num [Finset.sum_range_succ, List.getD_cons_zero, List.getD_cons_succ]
  ring_nf
  simp

/-- C3: on a constant series the one-step forecaster returns the
constant as its prediction — that part of the claim holds — but its
confidence is `NaN` (modelled `none`), not a number in `[30, 90]`: with
`ssTot = 0` the source's `rSquared = 1 - ssRes/ssTot` is `1 - 0/0 = NaN`
and `Math.max(30, Math.min(90, NaN))` is `NaN`.  Evaluation at the
failing input `[5, 5, 5, 5, 5]`. -/
theorem c3_flat_series_confidence_nan :
    predictNextValue [(5 : ℝ), 5, 5, 5, 5] 1 = ⟨5, none⟩
    ∧ (predictNextValue [(5 : ℝ), 5, 5, 5, 5] 1).prediction = 5
    ∧ (predictNextValue [(5 : ℝ), 5, 5, 5, 5] 1).confidence = none := by
  have h := predictNextValue_const5 (5 : ℝ)
  exact ⟨h, by rw [h], by rw [h]⟩

/-- C5 (amended): with fewer than five history readings the trend is
always `stable`; with at least five, the derived cardiovascular-risk
series over the last five readings is forecast one step ahead and the
trend is `deteriorating` when the forecast exceeds the current
cardiovascular risk plus 10, `improving` when it is below the current
risk minus 10, and `stable` otherwise.  (A flat derived series thus
yields `stable` only when its constant level is within 10 of the current
cardiovascular risk — not unconditionally.) -/
theorem c5_trend_thresholds (st : EngineState) (pid : String) (cur : VitalSignData)
    (hist : List VitalSignData) :
    (hist.length < 5 → (calculateHealthRiskScore st pid cur hist).trend = .stable)
    ∧ (5 ≤ hist.length →
        (calculateHealthRiskScore st pid cur hist).trend =
          (if cardiovascularRiskRaw ((st pid).getD getDefaultBaseline) cur + 10
              < (predictNextValue (recentCardioRisks ((st pid).getD getDefaultBaseline) hist) 1).prediction
            then .deteriorating
            else if (predictNextValue (recentCardioRisks ((st pid).getD getDefaultBaseline) hist) 1).prediction
                < cardiovascularRiskRaw ((st pid).getD getDefaultBaseline) cur - 10
              then .improving
              else .stable)) := by
  constructor
  · intro h
    simp only [calculateHealthRiskScore]
    rw [if_neg (by omega : ¬ 5 ≤ hist.length)]
  · intro h
    simp only [calculateHealthRiskScore]
    rw [if_pos h]

/-- C5 witness: the trend characterisation applied to an empty history
and to the concrete five-reading history `histC5`. -/
theorem c5_trend_thresholds_witness :
    (calculateHealthRiskScore emptyState "p-2" readingCurC5 []).trend = .stable
    ∧ (calculateHealthRiskScore emptyState "p-2" readingCurC5 histC5).trend =
        (if cardiovascularRiskRaw ((emptyState "p-2").getD getDefaultBaseline) readingCurC5 + 10
            < (predictNextValue (recentCardioRisks ((emptyState "p-2").getD getDefaultBaseline) histC5) 1).prediction
          then .deteriorating
          else if (predictNextValue (recentCardioRisks ((emptyState "p-2").getD getDefaultBaseline) histC5) 1).prediction
              < cardiovascularRiskRaw ((emptyState "p-2").getD getDefaultBaseline) readingCurC5 - 10
            then .improving
            else .stable) :=
  ⟨(c5_trend_thresholds emptyState "p-2" readingCurC5 []).1 (by simp),
   (c5_trend_thresholds emptyState "p-2" readingCurC5 histC5).2 (by simp [histC5])⟩

/-- C5 (counterexample to the unconditional flat-series clause): against
the default baseline, a history whose derived cardiovascular-risk series
is flat at `60` combined with a perfectly typical current reading
(current cardiovascular risk `0`) yields trend `deteriorating`, not
`stable`: the forecast `60` exceeds `0 + 10`. -/
theorem c5_flat_series_not_stable :
    recentCardioRisks getDefaultBaseline histC5 = [60, 60, 60, 60, 60]
    ∧ (calculateHealthRiskScore emptyState "p-3" readingCurC5 histC5).trend = .deteriorating
    ∧ (calculateHealthRiskScore emptyState "p-3" readingCurC5 histC5).trend ≠ .stable := by
  have hz1 : calculateZScore readingHistC5.heartRate getDefaultBaseline.heartRate.mean
      getDefaultBaseline.heartRate.std = 2 := by
    rw [show readingHistC5.heartRate = 105 from rfl,
      show getDefaultBaseline.heartRate.mean = 75 from rfl,
      show getDefaultBaseline.heartRate.std = 15 from rfl,
      calculateZScore_pos_eval 105 75 15 (by norm_num) (by norm_num)]
    norm_num
  have hz2 : calculateZScore readingHistC5.bloodPressure.systolic
      getDefaultBaseline.systolic.mean getDefaultBaseline.systolic.std = 2 := by
    rw [show readingHistC5.bloodPressure.systolic = 160 from rfl,
      show getDefaultBaseline.systolic.mean = 120 from rfl,
      show getDefaultBaseline.systolic.std = 20 from rfl,
      calculateZScore_pos_eval 160 120 20 (by norm_num) (by norm_num)]
    norm_num
  have hflat : recentCardioRisks getDefaultBaseline histC5 = [(60 : ℝ), 60, 60, 60, 60] := by
    unfold recentCardioRisks histC5
    simp only [List.length_cons, List.length_nil, List.drop, List.map_cons, List.map_nil,
      hz1, hz2]
    norm_num
  have hcr : cardiovascularRiskRaw getDefaultBaseline readingCurC5 = 0 := by
    have e1 : calculateZScore readingCurC5.heartRate getDefaultBaseline.heartRate.mean
        getDefaultBaseline.heartRate.std = 0 := by
      rw [show readingCurC5.heartRate = 75 from rfl,
        show getDefaultBaseline.heartRate.mean = 75 from rfl,
        show getDefaultBaseline.heartRate.std = 15 from rfl,
        calculateZScore_pos_eval 75 75 15 (by norm_num) (le_refl _)]
      norm_num
    have e2 : calculateZScore readingCurC5.bloodPressure.systolic
        getDefaultBaseline.systolic.mean getDefaultBaseline.systolic.std = 0 := by
      rw [show readingCurC5.bloodPressure.systolic = 120 from rfl,
        show getDefaultBaseline.systolic.mean = 120 from rfl,
        show getDefaultBaseline.systolic.std = 20 from rfl,
        calculateZScore_pos_eval 120 120 20 (by norm_num) (le_refl _)]
      norm_num
    have e3 : calculateZScore readingCurC5.bloodPressure.diastolic
        getDefaultBaseline.diastolic.mean getDefaultBaseline.diastolic.std = 0 := by
      rw [show readingCurC5.bloodPressure.diastolic = 80 from rfl,
        show getDefaultBaseline.diastolic.mean = 80 from rfl,
        show getDefaultBaseline.diastolic.std = 10 from rfl,
        calculateZScore_pos_eval 80 80 10 (by norm_num) (le_refl _)]
      norm_num
    unfold cardiovascularRiskRaw
    rw [e1, e2, e3]
    norm_num [min_def]
  have htrend : (calculateHealthRiskScore emptyState "p-3" readingCurC5 histC5).trend
      = .deteriorating := by
    simp only [calculateHealthRiskScore, emptyState, Option.getD_none]
    rw [if_pos (by simp [histC5] : 5 ≤ histC5.length)]
    simp only [hflat, predictNextValue_const5, hcr]
    norm_num
  exact ⟨hflat, htrend, by rw [htrend]; exact fun hc => TrendLabel.noConfusion hc⟩

/-- A quotient by the root of a product is at most `1` in absolute value
when the square of the numerator is bounded by the product. -/
lemma abs_div_sqrt_le_one (A P : ℝ) (hA : A ^ 2 ≤ P) (h : Real.sqrt P ≠ 0) :
    |A / Real.sqrt P| ≤ 1 := by
  have hpos : 0 < Real.sqrt P := lt_of_le_of_ne (Real.sqrt_nonneg _) (Ne.symm h)
  rw [abs_div, abs_of_pos hpos, div_le_one hpos]
  exact Real.abs_le_sqrt hA

/-- C7: `calculateCorrelation` always lies in `[-1, 1]`; it is exactly
`0` when the lengths differ, the sequences are empty, or the Pearson
denominator is `0`; and in the non-degenerate case it agrees with the
standard Pearson coefficient written with split square roots. -/
theorem c7_correlation_range (x y : List ℝ) :
    (-1 ≤ calculateCorrelation x y ∧ calculateCorrelation x y ≤ 1)
    ∧ (x.length ≠ y.length ∨ x.length = 0 ∨ corrDenom x y = 0 →
        calculateCorrelation x y = 0)
    ∧ (x.length = y.length → x.length ≠ 0 → corrDenom x y ≠ 0 →
        calculateCorrelation x y = specPearson x y) := by
  by_cases hdeg : x.length ≠ y.length ∨ x.length = 0
  · have h0 : calculateCorrelation x y = 0 := by
      unfold calculateCorrelation
      rw [if_pos hdeg]
    refine ⟨⟨by rw [h0]; norm_num, by rw [h0]; norm_num⟩, fun _ => h0, ?_⟩
    intro hlen hne _
    rcases hdeg with h | h
    · exact absurd hlen h
    · exact absurd h hne
  · by_cases hd : corrDenom x y = 0
    · have h0 : calculateCorrelation x y = 0 := by
        unfold calculateCorrelation
        rw [if_neg hdeg]
        simp only [if_pos hd]
      refine ⟨⟨by rw [h0]; norm_num, by rw [h0]; norm_num⟩, fun _ => h0, ?_⟩
      intro _ _ hne
      exact absurd hd hne
    · have hval : calculateCorrelation x y
          = (∑ i ∈ Finset.range x.length, dev x i * dev y i) / corrDenom x y := by
        unfold calculateCorrelation
        rw [if_neg hdeg]
        simp only [if_neg hd]
      have hCS : (∑ i ∈ Finset.range x.length, dev x i * dev y i) ^ 2
          ≤ (∑ i ∈ Finset.range x.length, dev x i * dev x i)
            * (∑ i ∈ Finset.range x.length, dev y i * dev y i) := by
        have h := Finset.sum_mul_sq_le_sq_mul_sq (Finset.range x.length) (dev x) (dev y)
        simpa only [pow_two] using h
      have hbound : |calculateCorrelation x y| ≤ 1 := by
        rw [hval]
        exact abs_div_sqrt_le_one _ _ hCS hd
      have hDX : 0 ≤ ∑ i ∈ Finset.range x.length, dev x i * dev x i :=
        Finset.sum_nonneg fun i _ => mul_self_nonneg _
      refine ⟨abs_le.mp hbound, fun hc => ?_, fun _ _ _ => ?_⟩
      · rcases hc with h | h | h
        · exact absurd (Or.inl h) hdeg
        · exact absurd (Or.inr h) hdeg
        · exact absurd h hd
      · rw [hval]
        unfold corrDenom specPearson
        rw [Real.sqrt_mul hDX]

/-- C7 witness: the degenerate case at a length mismatch, and the
non-degenerate case at `x = [0, 1]`, `y = [0, 2]` (Pearson denominator
`√(1/2 · 2) = 1`). -/
theorem c7_correlation_range_witness :
    calculateCorrelation [(1 : ℝ)] [] = 0
    ∧ calculateCorrelation [(0 : ℝ), 1] [0, 2] = specPearson [(0 : ℝ), 1] [0, 2] := by
  constructor
  · exact (c7_correlation_range [(1 : ℝ)] []).2.1 (Or.inl (by simp))
  · have hdenom : corrDenom [(0 : ℝ), 1] [0, 2] = 1 := by
      unfold corrDenom dev
      norm_num [Finset.sum_range_succ, List.getD_cons_zero, List.getD_cons_succ]
    exact (c7_correlation_range [(0 : ℝ), 1] [0, 2]).2.2 (by simp) (by simp)
      (by rw [hdenom]; norm_num)

/-- C9 (counterexample): the first predicted value of the multi-step
extrapolator on `[5, 0]` is `0`, not `level + 1·trend = -5`: the source
clamps each forecast with `Math.max(0, ...)`. -/
theorem c9_clamped_at_zero :
    generateTimeSeriesPredictions [(5 : ℝ), 0] 1 = [{ value := 0, confidence := 80 }]
    ∧ tsLevel [(5 : ℝ), 0] + (1 : ℝ) * tsTrend [(5 : ℝ), 0] = -5
    ∧ (0 : ℝ) ≠ -5 := by
  have hlevel : tsLevel [(5 : ℝ), 0] = 0 := by
    unfold tsLevel
    simp
  have htrend : tsTrend [(5 : ℝ), 0] = -5 := by
    unfold tsTrend
    rw [if_pos (by simp)]
    rw [hlevel]
    norm_num [List.getD_cons_zero]
  refine ⟨?_, by rw [hlevel, htrend]; norm_num, by norm_num⟩
  unfold generateTimeSeriesPredictions
  rw [show List.range 1 = [0] from rfl]
  simp only [List.map_cons, List.map_nil, hlevel, htrend]
  norm_num [max_def]

/-- C9 (amended): for a non-empty series, the `i`-th multi-step
prediction (1-based, `1 ≤ i ≤ periods`) has value
`max(0, level + i·trend)` — the forecast `level + i·trend` clamped below
at `0` — where `level` is the last observed value and `trend` the last
first-difference, and confidence `max(30, 90 - i·10)`. -/
theorem c9_multi_step_formula (values : List ℝ) (h : values ≠ []) (periods i : ℕ)
    (h1 : 1 ≤ i) (h2 : i ≤ periods) :
    (generateTimeSeriesPredictions values periods)[i - 1]?
      = some { value := max 0 (values.getLast h + (i : ℝ) * tsTrend values)
               confidence := max 30 (90 - (i : ℝ) * 10) } := by
  have hlt : i - 1 < periods := by omega
  have hlevel : tsLevel values = values.getLast h := by
    unfold tsLevel
    rw [List.getLast?_eq_getLast_of_ne_nil h]
    rfl
  have hi : i - 1 + 1 = i := Nat.succ_pred_eq_of_pos h1
  unfold generateTimeSeriesPredictions
  rw [List.getElem?_map, List.getElem?_range hlt]
  simp only [Option.map_some', hi, hlevel]

/-- C9 witness: the amended formula applied to the series `[5, 0]` with
two forecast periods at step `i = 1`. -/
theorem c9_multi_step_formula_witness :
    (generateTimeSeriesPredictions [(5 : ℝ), 0] 2)[0]?
      = some { value := max 0 ([(5 : ℝ), 0].getLast (by simp) + ((1 : ℕ) : ℝ) * tsTrend [(5 : ℝ), 0])
               confidence := max 30 (90 - ((1 : ℕ) : ℝ) * 10) } :=
  c9_multi_step_formula [(5 : ℝ), 0] (by simp) 2 1 (by norm_num) (by norm_num)

end HealthWise
